import Mathlib

/-!
Shallow embedding of the workout-tracker auth / rate-limit / worker core
(`services/api/src/auth.py`, `services/api/src/ratelimit/`,
`services/worker/src/tasks/`), together with theorems settling the
specification claims about it.
-/

namespace WorkoutTracker

/-! ## String primitives

Structural (kernel-reducible) counterparts of the Python string operations
the source uses: `str.split(":")`, `str.startswith`, `str.lower`, and
`int(str)`. -/

/-- Split a character list on a separator character; Python
`str.split(sep)` semantics for a one-character separator (always at least
one field, empty fields preserved). -/
def splitOnChar (c : Char) : List Char → List (List Char)
  | [] => [[]]
  | a :: rest =>
    match splitOnChar c rest with
    | [] => if a = c then [[], []] else [[a]]
    | g :: gs => if a = c then [] :: g :: gs else (a :: g) :: gs

/-- Python `key.split(":")`. -/
def strSplitColon (s : String) : List String :=
  (splitOnChar ':' s.data).map String.mk

/-- Python `s.startswith(pat)`. -/
def strStartsWith (s pat : String) : Bool :=
  List.isPrefixOf pat.data s.data

/-- Python `s.lower()`. -/
def strToLower (s : String) : String :=
  String.mk (s.data.map Char.toLower)

def digitsToNat (cs : List Char) : Nat :=
  cs.foldl (fun n c => n * 10 + (c.toNat - 48)) 0

def leadingDigits (s : String) : List Char :=
  s.data.takeWhile Char.isDigit

/-- Python `int(s)` on a decimal string, with `ValueError` folded into
`none` (the sign/whitespace corner cases the source never exercises are
omitted). -/
def pyParseInt (s : String) : Option Int :=
  match s.data with
  | [] => none
  | c :: rest =>
    if c = '-' then
      if rest ≠ [] ∧ rest.all Char.isDigit then some (-(digitsToNat rest : Int))
      else none
    else if (c :: rest).all Char.isDigit then some ((digitsToNat (c :: rest) : Int))
    else none

/-! ## JWT model (PyJWT `encode` / `decode` with HS256)

A payload is an association list of claims, as a Python dict.  The HMAC
signature is modelled as the signing secret itself (an ideal MAC: a
signature verifies against a secret exactly when it was produced with that
secret).  Time is an integer Unix timestamp. -/

inductive JVal where
  | str (s : String)
  | int (n : Int)
deriving DecidableEq

abbrev Payload := List (String × JVal)

/-- Python `dict.get(k)`. -/
def dictGet (p : Payload) (k : String) : Option JVal :=
  (p.find? (fun kv => kv.1 = k)).map (fun kv => kv.2)

/-- Python `dict[k] = v` / `dict.update`: replace in place if the key exists,
otherwise append. -/
def dictSet (p : Payload) (k : String) (v : JVal) : Payload :=
  if p.any (fun kv => kv.1 = k) then
    p.map (fun kv => if kv.1 = k then (k, v) else kv)
  else
    p ++ [(k, v)]

structure SignedToken where
  payload : Payload
  sig : String
deriving DecidableEq

/-- `jwt.encode(payload, secret, algorithm="HS256")`. -/
def jwtEncode (payload : Payload) (secret : String) : SignedToken :=
  ⟨payload, secret⟩

/-- `jwt.decode(token, secret, algorithms=["HS256"])`, with the exceptions
(`InvalidSignatureError`, `ExpiredSignatureError`, malformed `exp`) folded
into `none`.  PyJWT treats `exp <= now` as expired; a missing `exp` claim is
accepted. -/
def jwtVerify (t : SignedToken) (secret : String) (now : Int) : Option Payload :=
  if t.sig = secret then
    match dictGet t.payload "exp" with
    | some (JVal.int e) => if e ≤ now then none else some t.payload
    | some _ => none
    | none => some t.payload
  else
    none

/-! ## Token Service (`services/api/src/auth.py`) -/

def ACCESS_TOKEN_EXPIRE_MINUTES : Int := 30

def REFRESH_TOKEN_EXPIRE_DAYS : Int := 7

/-- `create_access_token(data, expires_delta, secret_key)`.

`expires_delta : Option Int` is the `timedelta` in seconds (`none` = the
Python default `None`).  The source guards the custom delta with
`if expires_delta:` — Python truthiness — so `timedelta(0)` is falsy and
falls back to the default `ACCESS_TOKEN_EXPIRE_MINUTES` expiry, exactly like
`None`. -/
def create_access_token (data : Payload) (expires_delta : Option Int)
    (secret_key : String) (now : Int) : SignedToken :=
  let expire : Int :=
    match expires_delta with
    | some d => if d = 0 then now + ACCESS_TOKEN_EXPIRE_MINUTES * 60 else now + d
    | none => now + ACCESS_TOKEN_EXPIRE_MINUTES * 60
  jwtEncode (dictSet data "exp" (JVal.int expire)) secret_key

/-- `create_refresh_token(user_id, secret_key)`: encodes
`{sub: str(user_id), type: "refresh", exp: now + 7 days}`. -/
def create_refresh_token (user_id : Int) (secret_key : String) (now : Int) :
    SignedToken :=
  jwtEncode
    [("sub", JVal.str (toString user_id)),
     ("type", JVal.str "refresh"),
     ("exp", JVal.int (now + REFRESH_TOKEN_EXPIRE_DAYS * 86400))]
    secret_key

/-- `decode_token(token, secret_key)`: returns the payload if valid, `none`
on any validation failure (the `except` clauses return `None`). -/
def decode_token (token : SignedToken) (secret_key : String) (now : Int) :
    Option Payload :=
  jwtVerify token secret_key now

/-! ## Identity Resolver (`get_current_user`, `require_role`) -/

/-- Row of the `users` table (the fields the auth layer reads). -/
structure UserTable where
  id : Int
  email : String
  name : String
  role : String
  disabled : Bool
deriving DecidableEq

/-- `HTTPException` as raised by the auth layer: 401 or 403 with a detail
string. -/
inductive AuthError where
  | unauthorized (detail : String)
  | forbidden (detail : String)
deriving DecidableEq

/-- Python `int(x)` applied to a JSON claim value, with
`ValueError`/`TypeError` folded into `none`. -/
def jvalToInt : JVal → Option Int
  | JVal.str s => pyParseInt s
  | JVal.int n => some n

/-- `get_current_user(credentials, session)`.  `credentials` is the bearer
token when present; `lookup` is `session.get(UserTable, ·)`. -/
def get_current_user (credentials : Option SignedToken)
    (lookup : Int → Option UserTable) (secret_key : String) (now : Int) :
    Except AuthError UserTable :=
  match credentials with
  | none => .error (AuthError.unauthorized "Could not validate credentials")
  | some token =>
    match decode_token token secret_key now with
    | none => .error (AuthError.unauthorized "Could not validate credentials")
    | some payload =>
      match dictGet payload "sub" with
      | none => .error (AuthError.unauthorized "Could not validate credentials")
      | some v =>
        match jvalToInt v with
        | none => .error (AuthError.unauthorized "Could not validate credentials")
        | some user_id =>
          match lookup user_id with
          | none => .error (AuthError.unauthorized "Could not validate credentials")
          | some user =>
            if user.disabled then
              .error (AuthError.forbidden "User account is disabled")
            else
              .ok user

/-- The subject id the resolver extracts from a payload: `payload.get("sub")`
followed by `int(...)`. -/
def subjectId (p : Payload) : Option Int :=
  (dictGet p "sub").bind jvalToInt

inductive Role where
  | admin
  | user
  | readonly
deriving DecidableEq

/-- `Role.value`. -/
def Role.val : Role → String
  | Role.admin => "admin"
  | Role.user => "user"
  | Role.readonly => "readonly"

/-- A single-quote character, for building Python-repr strings. -/
def sq : String := ⟨[Char.ofNat 39]⟩

/-- Python `repr` of a string (single-quoted). -/
def pyStrRepr (s : String) : String := sq ++ s ++ sq

/-- Python `str` of a list of strings, e.g. `['admin', 'user']`. -/
def pyListRepr (xs : List String) : String :=
  "[" ++ String.intercalate ", " (xs.map pyStrRepr) ++ "]"

/-- The 403 detail produced by `require_role`'s `role_checker`. -/
def roleNotAuthorizedDetail (role : String) (allowed : List Role) : String :=
  "Role " ++ pyStrRepr role ++ " not authorized. Required: " ++
    pyListRepr (allowed.map Role.val)

/-- The checker returned by `require_role(*allowed_roles)`, applied to the
already-resolved `current_user`. -/
def require_role (allowed : List Role) (current_user : UserTable) :
    Except AuthError UserTable :=
  if current_user.role ∈ allowed.map Role.val then
    .ok current_user
  else
    .error (AuthError.forbidden (roleNotAuthorizedDetail current_user.role allowed))

/-! ## Quota Policy (`services/api/src/ratelimit/`) -/

/-- `RateLimitSettings` with its declared defaults
(`services/api/src/ratelimit/config.py`). -/
structure RateLimitSettings where
  enabled : Bool := true
  public_limit : String := "100/minute"
  auth_limit : String := "10/minute"
  read_limit_anonymous : String := "60/minute"
  read_limit_user : String := "120/minute"
  read_limit_admin : String := "300/minute"
  write_limit_anonymous : String := "30/minute"
  write_limit_user : String := "60/minute"
  write_limit_admin : String := "150/minute"
  admin_limit : String := "100/minute"
deriving DecidableEq

def defaultRateLimitSettings : RateLimitSettings := {}

/-- `Role(role_str)` with `ValueError` folded into `none`. -/
def roleFromString (s : String) : Option Role :=
  if s = "admin" then some Role.admin
  else if s = "user" then some Role.user
  else if s = "readonly" then some Role.readonly
  else none

/-- The role-parsing head of `get_rate_limit_for_request`: keys of the form
`user:{username}:{role}` carry a role (`parts[2] if len(parts) >= 3 else
"user"`); ip-based keys are anonymous. -/
def roleOfKey (key : String) : Option Role :=
  if strStartsWith key "user:" then
    let parts := strSplitColon key
    let role_str := parts.getD 2 "user"
    roleFromString (strToLower role_str)
  else
    none

/-- `get_rate_limit_for_request(request, key)`, over the request's path and
method. -/
def get_rate_limit_for_request (settings : RateLimitSettings)
    (key path method : String) : String :=
  let role := roleOfKey key
  if strStartsWith path "/auth" then
    settings.auth_limit
  else if strStartsWith path "/admin" then
    settings.admin_limit
  else
    let is_read := method = "GET"
    if is_read then
      match role with
      | some Role.admin => settings.read_limit_admin
      | some Role.user => settings.read_limit_user
      | some Role.readonly => settings.read_limit_user
      | none => settings.read_limit_anonymous
    else
      match role with
      | some Role.admin => settings.write_limit_admin
      | some Role.user => settings.write_limit_user
      | _ => settings.write_limit_anonymous

/-- The count at the head of a limit string, e.g. `120` from `"120/minute"`. -/
def limitCount (limit : String) : Nat :=
  digitsToNat (leadingDigits limit)

/-! ## Idempotency-store sweep (`services/worker/src/tasks/cleanup.py`) -/

/-- The deletion condition of `cleanup_stale_data` for a scanned key:
`ttl == -1 or (ttl > 0 and ttl < 60)`.  (Redis `TTL`: `-1` = no expiry,
`-2` = key gone, otherwise remaining seconds.) -/
def ttlIsStale (ttl : Int) : Bool :=
  decide (ttl = -1 ∨ (0 < ttl ∧ ttl < 60))

/-- `cleanup_stale_data(ctx)` over a snapshot of the store: `reachable` is
whether the initial `ping` succeeds; `store` lists every key with its `TTL`
result.  Returns the deleted keys (the `SCAN ... MATCH "idempotency:*"` hits
satisfying the stale condition) and `deleted_idempotency_keys`. -/
def cleanup_stale_data (reachable : Bool) (store : List (String × Int)) :
    List String × Nat :=
  if reachable then
    let deleted :=
      (store.filter
        (fun kv => strStartsWith kv.1 "idempotency:" && ttlIsStale kv.2)).map
        (fun kv => kv.1)
    (deleted, deleted.length)
  else
    ([], 0)

/-! ## Bulk Refresher

Modelled from the spec: `ExerciseRefresher` / `RefreshConfig` live in
`dev/refresh.py`, which is not part of the source tree (only the worker task
`refresh_exercises` that drives it and its tests are).  The definitions below
follow the spec's section 4.5 algorithm: derive an idempotency key per item
scoped to the processing window; skip items whose key is marked; otherwise
attempt the remote refresh with up to `maxRetries` attempts, marking the key
and counting `processed` on success, counting `failed` on exhaustion; the
summary derives `success_rate = processed/total*100`, `0` when `total = 0`.
`outcome i k` is the environment: whether attempt `k` on item `i` succeeds.
Concurrency and backoff delays do not affect the counts, so the model
processes items sequentially. -/

structure RefreshConfig where
  maxConcurrency : Nat := 5
  maxRetries : Nat := 3
  retryBaseDelay : Nat := 5
  idempotencyTtl : Nat := 3600

/-- Modelled from the spec: the idempotency key
`idempotency:refresh:<item-id>:<date>` scoped to the processing window. -/
def idempotencyKey (window : String) (itemId : Nat) : String :=
  "idempotency:refresh:" ++ toString itemId ++ ":" ++ window

/-- Modelled from the spec: the per-item retry loop — the item succeeds if
any of the `maxRetries` attempts succeeds. -/
def attemptSucceeds (outcome : Nat → Nat → Bool) (maxRetries : Nat)
    (itemId : Nat) : Bool :=
  (List.range maxRetries).any (fun k => outcome itemId k)

structure RunState where
  store : List String
  processed : Nat
  skipped : Nat
  failed : Nat
  total : Nat
deriving DecidableEq

/-- Modelled from the spec: one item's `Pending → (Skipped | Succeeded |
Failed-after-retries)` step against the idempotency store. -/
def processItem (cfg : RefreshConfig) (outcome : Nat → Nat → Bool)
    (window : String) (st : RunState) (itemId : Nat) : RunState :=
  let key := idempotencyKey window itemId
  if key ∈ st.store then
    { st with skipped := st.skipped + 1, total := st.total + 1 }
  else if attemptSucceeds outcome cfg.maxRetries itemId then
    { st with store := key :: st.store, processed := st.processed + 1,
              total := st.total + 1 }
  else
    { st with failed := st.failed + 1, total := st.total + 1 }

def runItems (cfg : RefreshConfig) (outcome : Nat → Nat → Bool)
    (window : String) : List Nat → RunState → RunState
  | [], st => st
  | i :: rest, st => runItems cfg outcome window rest (processItem cfg outcome window st i)

/-- Modelled from the spec: `refresh_all` — a full pass over the item list
starting from fresh counters and the given idempotency-store contents. -/
def refresh_all (cfg : RefreshConfig) (outcome : Nat → Nat → Bool)
    (window : String) (items : List Nat) (store₀ : List String) : RunState :=
  runItems cfg outcome window items ⟨store₀, 0, 0, 0, 0⟩

structure RefreshRunSummary where
  processed : Nat
  skipped : Nat
  failed : Nat
  total : Nat
  success_rate : ℚ
deriving DecidableEq

/-- Modelled from the spec: `get_summary` — counts plus the derived success
rate (`processed / total * 100`, `0` when `total` is `0`). -/
def get_summary (st : RunState) : RefreshRunSummary :=
  { processed := st.processed, skipped := st.skipped, failed := st.failed,
    total := st.total,
    success_rate :=
      if st.total = 0 then 0
      else 100 * (st.processed : ℚ) / (st.total : ℚ) }

/-! ## Refresh endpoint (`POST /auth/refresh`, `services/api/src/api.py`) -/

/-- The `Token` response model. -/
structure Token where
  access_token : SignedToken
  token_type : String
  expires_in : Int
  refresh_token : Option SignedToken
deriving DecidableEq

/-- The `refresh_token` endpoint: decode the refresh token, require the
`"refresh"` type tag, resolve the subject, and mint a new pair.  The endpoint
never consults the user's `disabled` flag. -/
def refresh_endpoint (refresh_request : SignedToken)
    (lookup : Int → Option UserTable) (secret_key : String) (now : Int) :
    Except AuthError Token :=
  match decode_token refresh_request secret_key now with
  | none => .error (AuthError.unauthorized "Invalid or expired refresh token")
  | some payload =>
    if dictGet payload "type" = some (JVal.str "refresh") then
      match dictGet payload "sub" with
      | none => .error (AuthError.unauthorized "Invalid refresh token")
      | some v =>
        match jvalToInt v with
        | none => .error (AuthError.unauthorized "Invalid refresh token")
        | some user_id =>
          match lookup user_id with
          | none => .error (AuthError.unauthorized "User not found")
          | some user =>
            .ok { access_token :=
                    create_access_token
                      [("sub", JVal.str (toString user.id)),
                       ("role", JVal.str user.role)]
                      (some (ACCESS_TOKEN_EXPIRE_MINUTES * 60)) secret_key now,
                  token_type := "bearer",
                  expires_in := ACCESS_TOKEN_EXPIRE_MINUTES * 60,
                  refresh_token := some (create_refresh_token user.id secret_key now) }
    else
      .error (AuthError.unauthorized "Invalid or expired refresh token")

/-! ## Helper lemmas -/

theorem any_key_eq_false {p : Payload} {k : String} (h : dictGet p k = none) :
    p.any (fun kv => kv.1 = k) = false := by
  rw [dictGet, Option.map_eq_none', List.find?_eq_none] at h
  simpa [List.any_eq_false] using h

theorem dictSet_of_none {p : Payload} {k : String} (v : JVal)
    (h : dictGet p k = none) : dictSet p k v = p ++ [(k, v)] := by
  simp [dictSet, any_key_eq_false h]

theorem dictGet_append_single {p : Payload} {k : String} (v : JVal)
    (h : dictGet p k = none) : dictGet (p ++ [(k, v)]) k = some v := by
  rw [dictGet, Option.map_eq_none'] at h
  rw [dictGet, List.find?_append, h]
  simp

/-! ## Claim theorems -/

/-- C3 (counterexample): the claim says `decode_token ∘ create_access_token`
returns `none` for every ttl ≤ 0, but at ttl = 0 the source's
`if expires_delta:` truthiness check treats `timedelta(0)` as absent, the
default 30-minute expiry applies, and decoding succeeds. -/
theorem create_access_token_ttl_zero_not_none :
    decode_token (create_access_token [("sub", JVal.str "1")] (some 0) "k" 0) "k" 0
      = some [("sub", JVal.str "1"), ("exp", JVal.int 1800)] ∧
    decode_token (create_access_token [("sub", JVal.str "1")] (some 0) "k" 0) "k" 0
      ≠ none := by
  refine ⟨by decide, by decide⟩

/-- C3 (amended): for claim sets without an `exp` entry and the same secret,
`decode_token (create_access_token claims ttl)` returns the input claims plus
the `exp` field whenever ttl > 0, and returns `none` whenever ttl < 0
(at ttl = 0 the default expiry applies instead, see the counterexample). -/
theorem token_roundtrip_and_expiry (claims : Payload) (secret : String)
    (now ttl : Int) (hexp : dictGet claims "exp" = none) :
    (0 < ttl →
      decode_token (create_access_token claims (some ttl) secret now) secret now
        = some (claims ++ [("exp", JVal.int (now + ttl))])) ∧
    (ttl < 0 →
      decode_token (create_access_token claims (some ttl) secret now) secret now
        = none) := by
  constructor
  · intro hpos
    have hne : ttl ≠ 0 := by omega
    have hexp2 : dictGet (claims ++ [("exp", JVal.int (now + ttl))]) "exp"
        = some (JVal.int (now + ttl)) := dictGet_append_single _ hexp
    simp only [decode_token, create_access_token, jwtEncode, jwtVerify,
      hne, if_false, dictSet_of_none _ hexp, hexp2, if_true]
    have : ¬ (now + ttl ≤ now) := by omega
    simp [this]
  · intro hneg
    have hne : ttl ≠ 0 := by omega
    have hexp2 : dictGet (claims ++ [("exp", JVal.int (now + ttl))]) "exp"
        = some (JVal.int (now + ttl)) := dictGet_append_single _ hexp
    simp only [decode_token, create_access_token, jwtEncode, jwtVerify,
      hne, if_false, dictSet_of_none _ hexp, hexp2]
    have : now + ttl ≤ now := by omega
    simp [this]

/-- C3 (witness): concrete instance of the amended round trip at ttl = 60 and
of the expired case at ttl = -5. -/
theorem token_roundtrip_and_expiry_witness :
    decode_token (create_access_token [("sub", JVal.str "1")] (some 60) "k" 0) "k" 0
      = some [("sub", JVal.str "1"), ("exp", JVal.int 60)] ∧
    decode_token (create_access_token [("sub", JVal.str "1")] (some (-5)) "k" 0) "k" 0
      = none :=
  ⟨(token_roundtrip_and_expiry [("sub", JVal.str "1")] "k" 0 60 (by decide)).1
      (by decide),
    (token_roundtrip_and_expiry [("sub", JVal.str "1")] "k" 0 (-5) (by decide)).2
      (by decide)⟩

/-- C6: a token signed with secret `s1` never decodes under a different
verifier secret `s2` — both for access tokens and refresh tokens,
`decode_token` returns `none`. -/
theorem decode_token_wrong_secret (claims : Payload) (expires_delta : Option Int)
    (user_id : Int) (s1 s2 : String) (now : Int) (h : s1 ≠ s2) :
    decode_token (create_access_token claims expires_delta s1 now) s2 now = none ∧
    decode_token (create_refresh_token user_id s1 now) s2 now = none := by
  constructor <;>
    simp [decode_token, create_access_token, create_refresh_token, jwtEncode,
      jwtVerify, h]

/-- C6 (witness): concrete wrong-secret decode of both token kinds. -/
theorem decode_token_wrong_secret_witness :
    ("a" : String) ≠ "b" ∧
    decode_token (create_access_token [("sub", JVal.str "1")] none "a" 0) "b" 0
      = none ∧
    decode_token (create_refresh_token 1 "a" 0) "b" 0 = none :=
  ⟨by decide,
    (decode_token_wrong_secret [("sub", JVal.str "1")] none 1 "a" "b" 0 (by decide)).1,
    (decode_token_wrong_secret [("sub", JVal.str "1")] none 1 "a" "b" 0 (by decide)).2⟩

/-- C1 (counterexample): the claim says a request with no bearer token is
treated as anonymous and not rejected, but `get_current_user` raises the
401 `"Could not validate credentials"` error whenever `credentials is None`. -/
theorem get_current_user_no_token_rejects :
    get_current_user none (fun _ => none) "k" 0
      = .error (AuthError.unauthorized "Could not validate credentials") := rfl

/-- C1 (amended): `get_current_user`'s case analysis — a missing bearer token
is rejected with the same 401 `"Could not validate credentials"` error (not
treated as anonymous); a present token that fails to decode gives that 401;
a decoded token whose subject matches no identity record gives that 401; a
resolved identity flagged disabled gives the 403 `"User account is
disabled"` error; otherwise the resolved identity is returned. -/
theorem get_current_user_cases (lookup : Int → Option UserTable)
    (secret : String) (now : Int) :
    (get_current_user none lookup secret now
       = .error (AuthError.unauthorized "Could not validate credentials")) ∧
    (∀ tok, decode_token tok secret now = none →
       get_current_user (some tok) lookup secret now
         = .error (AuthError.unauthorized "Could not validate credentials")) ∧
    (∀ tok p uid, decode_token tok secret now = some p →
       subjectId p = some uid →
       (lookup uid = none →
          get_current_user (some tok) lookup secret now
            = .error (AuthError.unauthorized "Could not validate credentials")) ∧
       (∀ u, lookup uid = some u →
          (u.disabled = true →
             get_current_user (some tok) lookup secret now
               = .error (AuthError.forbidden "User account is disabled")) ∧
          (u.disabled = false →
             get_current_user (some tok) lookup secret now = .ok u))) := by
  refine ⟨rfl, ?_, ?_⟩
  · intro tok hdec
    simp [get_current_user, hdec]
  · intro tok p uid hdec hsub
    rw [subjectId, Option.bind_eq_some] at hsub
    obtain ⟨v, hv, hvi⟩ := hsub
    refine ⟨fun hnone => ?_, fun u hu => ⟨fun hd => ?_, fun hd => ?_⟩⟩ <;>
      simp [get_current_user, hdec, hv, hvi, *]

/-- C1 (witness): a decodable token whose subject resolves to a disabled
user yields the 403, and the same token with the user enabled passes the
identity through. -/
theorem get_current_user_cases_witness :
    get_current_user (some (jwtEncode [("sub", JVal.str "7")] "k"))
        (fun i => if i = 7 then some ⟨7, "e", "n", "user", true⟩ else none) "k" 0
      = .error (AuthError.forbidden "User account is disabled") ∧
    get_current_user (some (jwtEncode [("sub", JVal.str "7")] "k"))
        (fun i => if i = 7 then some ⟨7, "e", "n", "user", false⟩ else none) "k" 0
      = .ok ⟨7, "e", "n", "user", false⟩ :=
  ⟨(((get_current_user_cases
        (fun i => if i = 7 then some ⟨7, "e", "n", "user", true⟩ else none) "k" 0).2.2
      (jwtEncode [("sub", JVal.str "7")] "k") [("sub", JVal.str "7")] 7
      (by decide) (by decide)).2 ⟨7, "e", "n", "user", true⟩ (by decide)).1 rfl,
    (((get_current_user_cases
        (fun i => if i = 7 then some ⟨7, "e", "n", "user", false⟩ else none) "k" 0).2.2
      (jwtEncode [("sub", JVal.str "7")] "k") [("sub", JVal.str "7")] 7
      (by decide) (by decide)).2 ⟨7, "e", "n", "user", false⟩ (by decide)).2 rfl⟩

/-- C7: the checker produced by `require_role` rejects an identity whose
role is outside the allowed set with the 403 error naming the required
roles, and passes any identity with an allowed role through unchanged. -/
theorem require_role_cases (allowed : List Role) (u : UserTable) :
    (u.role ∉ allowed.map Role.val →
       require_role allowed u
         = .error (AuthError.forbidden (roleNotAuthorizedDetail u.role allowed))) ∧
    (u.role ∈ allowed.map Role.val → require_role allowed u = .ok u) := by
  constructor <;> intro h <;> simp [require_role, h]

/-- C7 (witness): a `"user"`-role identity is rejected by an admin-only
gate and passed through unchanged by a user gate. -/
theorem require_role_cases_witness :
    require_role [Role.admin] ⟨1, "e", "n", "user", false⟩
      = .error (AuthError.forbidden
          (roleNotAuthorizedDetail "user" [Role.admin])) ∧
    require_role [Role.user] ⟨1, "e", "n", "user", false⟩
      = .ok ⟨1, "e", "n", "user", false⟩ :=
  ⟨(require_role_cases [Role.admin] ⟨1, "e", "n", "user", false⟩).1 (by decide),
    (require_role_cases [Role.user] ⟨1, "e", "n", "user", false⟩).2 (by decide)⟩

/-- C2 (counterexample): two deviations from the claim at concrete inputs.
A `readonly` key writing to a non-auth, non-admin path gets the *anonymous*
write tier, not the user tier; and a `user:`-key with no role segment
defaults to the *user* role, not the anonymous tier. -/
theorem quota_readonly_write_counterexample :
    get_rate_limit_for_request defaultRateLimitSettings "user:5:readonly"
        "/exercises" "POST"
      = defaultRateLimitSettings.write_limit_anonymous ∧
    defaultRateLimitSettings.write_limit_anonymous
      ≠ defaultRateLimitSettings.write_limit_user ∧
    get_rate_limit_for_request defaultRateLimitSettings "user:alice"
        "/exercises" "GET"
      = defaultRateLimitSettings.read_limit_user ∧
    defaultRateLimitSettings.read_limit_user
      ≠ defaultRateLimitSettings.read_limit_anonymous :=
  ⟨by decide, by decide, by decide, by decide⟩

/-- C2 (amended): first-match rule precedence of the Quota Policy — auth
prefix wins regardless of role, then admin prefix, then read (GET) versus
write (other methods) crossed with the role from the key; `readonly` shares
the user tier for reads but falls to the anonymous tier for writes; a
`user:` key with fewer than three segments defaults to the user role; ip
keys and unrecognized roles are anonymous. -/
theorem quota_rule_precedence (s : RateLimitSettings) (key path method : String) :
    (strStartsWith path "/auth" = true →
       get_rate_limit_for_request s key path method = s.auth_limit) ∧
    (strStartsWith path "/auth" = false → strStartsWith path "/admin" = true →
       get_rate_limit_for_request s key path method = s.admin_limit) ∧
    (strStartsWith path "/auth" = false → strStartsWith path "/admin" = false →
       ((method = "GET" →
           (roleOfKey key = some Role.admin →
              get_rate_limit_for_request s key path method = s.read_limit_admin) ∧
           (roleOfKey key = some Role.user ∨ roleOfKey key = some Role.readonly →
              get_rate_limit_for_request s key path method = s.read_limit_user) ∧
           (roleOfKey key = none →
              get_rate_limit_for_request s key path method = s.read_limit_anonymous)) ∧
        (method ≠ "GET" →
           (roleOfKey key = some Role.admin →
              get_rate_limit_for_request s key path method = s.write_limit_admin) ∧
           (roleOfKey key = some Role.user →
              get_rate_limit_for_request s key path method = s.write_limit_user) ∧
           (roleOfKey key = some Role.readonly ∨ roleOfKey key = none →
              get_rate_limit_for_request s key path method
                = s.write_limit_anonymous)))) ∧
    (strStartsWith key "user:" = true → (strSplitColon key).length ≤ 2 →
       roleOfKey key = some Role.user) := by
  refine ⟨?_, ?_, ?_, ?_⟩
  · intro ha
    simp [get_rate_limit_for_request, ha]
  · intro ha hb
    simp [get_rate_limit_for_request, ha, hb]
  · intro ha hb
    refine ⟨fun hm => ⟨fun hr => ?_, fun hr => ?_, fun hr => ?_⟩,
            fun hm => ⟨fun hr => ?_, fun hr => ?_, fun hr => ?_⟩⟩
    · simp [get_rate_limit_for_request, ha, hb, hm, hr]
    · rcases hr with hr | hr <;> simp [get_rate_limit_for_request, ha, hb, hm, hr]
    · simp [get_rate_limit_for_request, ha, hb, hm, hr]
    · simp [get_rate_limit_for_request, ha, hb, hm, hr]
    · simp [get_rate_limit_for_request, ha, hb, hm, hr]
    · rcases hr with hr | hr <;> simp [get_rate_limit_for_request, ha, hb, hm, hr]
  · intro hu hlen
    rw [roleOfKey, if_pos hu]
    simp only [List.getD_eq_default _ _ hlen]
    decide

/-- C2 (witness): the admin-prefix rule and the readonly-read rule applied
at concrete inputs. -/
theorem quota_rule_precedence_witness :
    get_rate_limit_for_request defaultRateLimitSettings "ip:1.2.3.4"
        "/admin/users" "GET"
      = defaultRateLimitSettings.admin_limit ∧
    get_rate_limit_for_request defaultRateLimitSettings "user:5:readonly"
        "/exercises" "GET"
      = defaultRateLimitSettings.read_limit_user :=
  ⟨((quota_rule_precedence defaultRateLimitSettings "ip:1.2.3.4" "/admin/users"
        "GET").2.1) (by decide) (by decide),
    ((((quota_rule_precedence defaultRateLimitSettings "user:5:readonly"
        "/exercises" "GET").2.2.1) (by decide) (by decide)).1 (by decide)).2.1
      (Or.inr (by decide))⟩

/-- C8: the Quota Policy is a pure function — equal inputs yield equal limit
strings — and under the default configuration a key carrying the admin role
never receives a smaller limit count than a key carrying the user role for
the same path and method. -/
theorem quota_pure_and_admin_ge_user (k1 k2 path method : String)
    (h1 : roleOfKey k1 = some Role.admin) (h2 : roleOfKey k2 = some Role.user) :
    (∀ (st : RateLimitSettings) (key p m : String),
       get_rate_limit_for_request st key p m = get_rate_limit_for_request st key p m) ∧
    limitCount (get_rate_limit_for_request defaultRateLimitSettings k2 path method)
      ≤ limitCount (get_rate_limit_for_request defaultRateLimitSettings k1 path method) := by
  refine ⟨fun _ _ _ _ => rfl, ?_⟩
  by_cases ha : strStartsWith path "/auth" = true
  · simp [get_rate_limit_for_request, ha]
  · by_cases hb : strStartsWith path "/admin" = true
    · simp [get_rate_limit_for_request, ha, hb]
    · by_cases hm : method = "GET"
      · simp only [get_rate_limit_for_request, ha, hb, hm, h1, h2,
          Bool.false_eq_true, if_false, if_true]
        decide
      · simp only [get_rate_limit_for_request, ha, hb, hm, h1, h2,
          Bool.false_eq_true, if_false]
        decide

/-- C8 (witness): concrete admin and user keys on a read path. -/
theorem quota_pure_and_admin_ge_user_witness :
    limitCount (get_rate_limit_for_request defaultRateLimitSettings
        "user:2:user" "/exercises" "GET")
      ≤ limitCount (get_rate_limit_for_request defaultRateLimitSettings
        "user:1:admin" "/exercises" "GET") :=
  (quota_pure_and_admin_ge_user "user:1:admin" "user:2:user" "/exercises" "GET"
    (by decide) (by decide)).2

/-- C9 (counterexample): a key that exists with 0 seconds of TTL remaining
(Redis `TTL` result `0`) is strictly below the 60-second threshold, yet the
sweep's `ttl > 0 and ttl < 60` guard does not delete it. -/
theorem cleanup_ttl_zero_counterexample :
    cleanup_stale_data true [("idempotency:refresh:1:d", 0)] = ([], 0) ∧
    (0 : Int) < 60 ∧ (0 : Int) ≠ -1 :=
  ⟨by decide, by decide, by decide⟩

/-- C9 (amended): the sweep deletes exactly the scanned keys under the
`idempotency:` namespace whose TTL is absent (`-1`) or strictly between 0
and 60 seconds remaining, returns their count, and returns the zero-count
result when the store is unreachable. -/
theorem cleanup_stale_data_spec (store : List (String × Int)) :
    cleanup_stale_data false store = ([], 0) ∧
    (cleanup_stale_data true store).2 = (cleanup_stale_data true store).1.length ∧
    (cleanup_stale_data true store).1
      = (store.filter (fun kv =>
          decide (strStartsWith kv.1 "idempotency:" = true ∧
            (kv.2 = -1 ∨ (0 < kv.2 ∧ kv.2 < 60))))).map (fun kv => kv.1) := by
  refine ⟨rfl, rfl, ?_⟩
  have hfun : (fun kv : String × Int =>
        strStartsWith kv.1 "idempotency:" && ttlIsStale kv.2)
      = (fun kv : String × Int =>
        decide (strStartsWith kv.1 "idempotency:" = true ∧
          (kv.2 = -1 ∨ (0 < kv.2 ∧ kv.2 < 60)))) := by
    funext kv
    cases h : strStartsWith kv.1 "idempotency:" <;> simp [ttlIsStale, h]
  simp only [cleanup_stale_data, if_true, hfun]

/-- C10: a refresh token that decodes, carries the `"refresh"` type tag, and
whose subject resolves to an existing identity yields a fresh token pair
from the `/auth/refresh` endpoint even when that identity is flagged
disabled — the endpoint performs no disabled check. -/
theorem refresh_endpoint_ignores_disabled (tok : SignedToken)
    (lookup : Int → Option UserTable) (secret : String) (now : Int)
    (payload : Payload) (v : JVal) (user_id : Int) (u : UserTable)
    (h1 : decode_token tok secret now = some payload)
    (h2 : dictGet payload "type" = some (JVal.str "refresh"))
    (h3 : dictGet payload "sub" = some v)
    (h4 : jvalToInt v = some user_id)
    (h5 : lookup user_id = some u)
    (h6 : u.disabled = true) :
    refresh_endpoint tok lookup secret now
      = .ok { access_token :=
                create_access_token
                  [("sub", JVal.str (toString u.id)), ("role", JVal.str u.role)]
                  (some (ACCESS_TOKEN_EXPIRE_MINUTES * 60)) secret now,
              token_type := "bearer",
              expires_in := ACCESS_TOKEN_EXPIRE_MINUTES * 60,
              refresh_token := some (create_refresh_token u.id secret now) } := by
  simp [refresh_endpoint, h1, h2, h3, h4, h5]

/-- C10 (witness): a disabled user still gets a fresh pair from the refresh
endpoint. -/
theorem refresh_endpoint_ignores_disabled_witness :
    refresh_endpoint (create_refresh_token 7 "k" 0)
        (fun i => if i = 7 then some ⟨7, "e", "n", "user", true⟩ else none) "k" 0
      = .ok { access_token :=
                create_access_token
                  [("sub", JVal.str "7"), ("role", JVal.str "user")]
                  (some 1800) "k" 0,
              token_type := "bearer",
              expires_in := 1800,
              refresh_token := some (create_refresh_token 7 "k" 0) } :=
  refresh_endpoint_ignores_disabled (create_refresh_token 7 "k" 0)
    (fun i => if i = 7 then some ⟨7, "e", "n", "user", true⟩ else none) "k" 0
    [("sub", JVal.str "7"), ("type", JVal.str "refresh"),
     ("exp", JVal.int 604800)]
    (JVal.str "7") 7 ⟨7, "e", "n", "user", true⟩
    (by decide) (by decide) (by decide) (by decide) (by decide) rfl

/-! ## Refresher lemmas -/

theorem runItems_counts (cfg : RefreshConfig) (outcome : Nat → Nat → Bool)
    (window : String) :
    ∀ (items : List Nat) (st : RunState),
      st.total = st.processed + st.skipped + st.failed →
      (runItems cfg outcome window items st).total
        = (runItems cfg outcome window items st).processed
          + (runItems cfg outcome window items st).skipped
          + (runItems cfg outcome window items st).failed := by
  intro items
  induction items with
  | nil => intro st h; exact h
  | cons i rest ih =>
    intro st h
    simp only [runItems]
    apply ih
    by_cases h1 : idempotencyKey window i ∈ st.store
    · simp [processItem, h1]; omega
    · by_cases h2 : attemptSucceeds outcome cfg.maxRetries i = true
      · simp [processItem, h1, h2]; omega
      · simp [processItem, h1, h2]; omega

theorem mem_store_runItems_of_mem (cfg : RefreshConfig)
    (outcome : Nat → Nat → Bool) (window : String) :
    ∀ (items : List Nat) (st : RunState) (x : String),
      x ∈ st.store → x ∈ (runItems cfg outcome window items st).store := by
  intro items
  induction items with
  | nil => intro st x hx; exact hx
  | cons i rest ih =>
    intro st x hx
    simp only [runItems]
    apply ih
    by_cases h1 : idempotencyKey window i ∈ st.store
    · simpa [processItem, h1] using hx
    · by_cases h2 : attemptSucceeds outcome cfg.maxRetries i = true
      · simp [processItem, h1, h2]
        exact Or.inr hx
      · simpa [processItem, h1, h2] using hx

theorem processItem_store_cases (cfg : RefreshConfig)
    (outcome : Nat → Nat → Bool) (window : String) (st : RunState) (i : Nat) :
    ∀ x, x ∈ (processItem cfg outcome window st i).store →
      x = idempotencyKey window i ∨ x ∈ st.store := by
  intro x hx
  by_cases h1 : idempotencyKey window i ∈ st.store
  · right; simpa [processItem, h1] using hx
  · by_cases h2 : attemptSucceeds outcome cfg.maxRetries i = true
    · have hx' : x ∈ idempotencyKey window i :: st.store := by
        simpa [processItem, h1, h2] using hx
      simpa using hx'
    · right; simpa [processItem, h1, h2] using hx

theorem store_runItems_subset (cfg : RefreshConfig)
    (outcome : Nat → Nat → Bool) (window : String) :
    ∀ (items : List Nat) (st : RunState) (x : String),
      x ∈ (runItems cfg outcome window items st).store →
      x ∈ st.store ∨ ∃ i, i ∈ items ∧ x = idempotencyKey window i := by
  intro items
  induction items with
  | nil => intro st x hx; exact Or.inl hx
  | cons i rest ih =>
    intro st x hx
    simp only [runItems] at hx
    rcases ih _ x hx with hmem | ⟨j, hj, rfl⟩
    · rcases processItem_store_cases cfg outcome window st i x hmem with rfl | hmem'
      · exact Or.inr ⟨i, List.mem_cons_self i rest, rfl⟩
      · exact Or.inl hmem'
    · exact Or.inr ⟨j, List.mem_cons_of_mem i hj, rfl⟩

theorem runItems_fresh (cfg : RefreshConfig) (outcome : Nat → Nat → Bool)
    (window : String) :
    ∀ (items : List Nat) (st : RunState),
      (items.map (idempotencyKey window)).Nodup →
      (∀ i ∈ items, idempotencyKey window i ∉ st.store) →
      (runItems cfg outcome window items st).processed
          = st.processed
            + items.countP (fun i => attemptSucceeds outcome cfg.maxRetries i) ∧
      (runItems cfg outcome window items st).skipped = st.skipped ∧
      (∀ i ∈ items,
        (idempotencyKey window i ∈ (runItems cfg outcome window items st).store
          ↔ attemptSucceeds outcome cfg.maxRetries i = true)) := by
  intro items
  induction items with
  | nil => intro st _ _; simp [runItems]
  | cons i rest ih =>
    intro st hk hfresh
    have hk1 : idempotencyKey window i ∉ rest.map (idempotencyKey window) :=
      (List.nodup_cons.mp (by simpa using hk)).1
    have hk2 : (rest.map (idempotencyKey window)).Nodup :=
      (List.nodup_cons.mp (by simpa using hk)).2
    have hf1 : idempotencyKey window i ∉ st.store :=
      hfresh i (List.mem_cons_self i rest)
    simp only [runItems]
    by_cases h2 : attemptSucceeds outcome cfg.maxRetries i = true
    · have hstep : processItem cfg outcome window st i
          = { st with
              store := idempotencyKey window i :: st.store,
              processed := st.processed + 1,
              total := st.total + 1 } := by
        simp [processItem, hf1, h2]
      rw [hstep]
      have hfresh' : ∀ j ∈ rest,
          idempotencyKey window j
            ∉ (idempotencyKey window i :: st.store : List String) := by
        intro j hj
        simp only [List.mem_cons]
        rintro (hjx | hjx)
        · exact hk1 (hjx ▸ List.mem_map_of_mem (idempotencyKey window) hj)
        · exact hfresh j (List.mem_cons_of_mem i hj) hjx
      obtain ⟨hp, hs, hm⟩ := ih
        { st with
          store := idempotencyKey window i :: st.store,
          processed := st.processed + 1,
          total := st.total + 1 } hk2 (by simpa using hfresh')
      refine ⟨?_, by simpa using hs, ?_⟩
      · rw [hp]
        simp [List.countP_cons, h2]
        omega
      · intro j hj
        rcases List.mem_cons.mp hj with rfl | hj
        · constructor
          · intro _; exact h2
          · intro _
            exact mem_store_runItems_of_mem cfg outcome window rest _ _
              (List.mem_cons_self _ _)
        · exact hm j hj
    · have hstep : processItem cfg outcome window st i
          = { st with
              failed := st.failed + 1,
              total := st.total + 1 } := by
        simp [processItem, hf1, h2]
      rw [hstep]
      have hfresh' : ∀ j ∈ rest,
          idempotencyKey window j ∉ st.store := fun j hj =>
        hfresh j (List.mem_cons_of_mem i hj)
      obtain ⟨hp, hs, hm⟩ := ih
        { st with
          failed := st.failed + 1,
          total := st.total + 1 } hk2 (by simpa using hfresh')
      refine ⟨?_, by simpa using hs, ?_⟩
      · rw [hp]
        simp [List.countP_cons, h2]
      · intro j hj
        rcases List.mem_cons.mp hj with rfl | hj
        · refine iff_of_false ?_ h2
          intro hmem
          rcases store_runItems_subset cfg outcome window rest _ _ hmem with
            hmem' | ⟨l, hl, hkey⟩
          · exact hf1 (by simpa using hmem')
          · exact hk1 (hkey ▸ List.mem_map_of_mem (idempotencyKey window) hl)
        · exact hm j hj

theorem runItems_stable (cfg : RefreshConfig) (outcome : Nat → Nat → Bool)
    (window : String) :
    ∀ (items : List Nat) (st : RunState),
      (∀ i ∈ items,
        (idempotencyKey window i ∈ st.store
          ↔ attemptSucceeds outcome cfg.maxRetries i = true)) →
      (runItems cfg outcome window items st).processed = st.processed ∧
      (runItems cfg outcome window items st).skipped
        = st.skipped
          + items.countP (fun i => attemptSucceeds outcome cfg.maxRetries i) := by
  intro items
  induction items with
  | nil => intro st _; simp [runItems]
  | cons i rest ih =>
    intro st hiff
    have hi := hiff i (List.mem_cons_self i rest)
    simp only [runItems]
    by_cases h2 : attemptSucceeds outcome cfg.maxRetries i = true
    · have hmem : idempotencyKey window i ∈ st.store := hi.mpr h2
      have hstep : processItem cfg outcome window st i
          = { st with
              skipped := st.skipped + 1,
              total := st.total + 1 } := by
        simp [processItem, hmem]
      rw [hstep]
      obtain ⟨hp, hs⟩ := ih { st with skipped := st.skipped + 1, total := st.total + 1 }
        (by intro j hj; simpa using hiff j (List.mem_cons_of_mem i hj))
      refine ⟨by simpa using hp, ?_⟩
      rw [hs]
      simp [List.countP_cons, h2]
      omega
    · have hmem : idempotencyKey window i ∉ st.store := fun h => h2 (hi.mp h)
      have hstep : processItem cfg outcome window st i
          = { st with
              failed := st.failed + 1,
              total := st.total + 1 } := by
        simp [processItem, hmem, h2]
      rw [hstep]
      obtain ⟨hp, hs⟩ := ih { st with failed := st.failed + 1, total := st.total + 1 }
        (by intro j hj; simpa using hiff j (List.mem_cons_of_mem i hj))
      refine ⟨by simpa using hp, ?_⟩
      rw [hs]
      simp [List.countP_cons, h2]

/-- C5: every summary produced by a refresh run satisfies
`total = processed + skipped + failed`, and `success_rate` is `0` when
`total` is `0` and `100 * processed / total` otherwise. -/
theorem refresh_summary_invariant (cfg : RefreshConfig)
    (outcome : Nat → Nat → Bool) (window : String) (items : List Nat)
    (store₀ : List String) :
    (get_summary (refresh_all cfg outcome window items store₀)).total
      = (get_summary (refresh_all cfg outcome window items store₀)).processed
        + (get_summary (refresh_all cfg outcome window items store₀)).skipped
        + (get_summary (refresh_all cfg outcome window items store₀)).failed ∧
    ((get_summary (refresh_all cfg outcome window items store₀)).total = 0 →
      (get_summary (refresh_all cfg outcome window items store₀)).success_rate
        = 0) ∧
    ((get_summary (refresh_all cfg outcome window items store₀)).total ≠ 0 →
      (get_summary (refresh_all cfg outcome window items store₀)).success_rate
        = 100
          * ((get_summary (refresh_all cfg outcome window items store₀)).processed : ℚ)
          / ((get_summary (refresh_all cfg outcome window items store₀)).total : ℚ)) := by
  refine ⟨?_, ?_, ?_⟩
  · simpa [get_summary, refresh_all] using
      runItems_counts cfg outcome window items ⟨store₀, 0, 0, 0, 0⟩ (by simp)
  · intro h
    simp only [get_summary] at h ⊢
    simp [h]
  · intro h
    simp only [get_summary] at h ⊢
    simp [h]

/-- C5 (witness): a concrete two-item run with one success exercises the
nonzero-total branch of the invariant. -/
theorem refresh_summary_invariant_witness :
    (get_summary (refresh_all {} (fun i _ => decide (i = 1)) "d" [1, 2] [])).total
      ≠ 0 ∧
    (get_summary (refresh_all {} (fun i _ => decide (i = 1)) "d" [1, 2] [])).success_rate
      = 100
        * ((get_summary (refresh_all {} (fun i _ => decide (i = 1)) "d" [1, 2] [])).processed : ℚ)
        / ((get_summary (refresh_all {} (fun i _ => decide (i = 1)) "d" [1, 2] [])).total : ℚ) :=
  ⟨by decide,
    (refresh_summary_invariant {} (fun i _ => decide (i = 1)) "d" [1, 2] []).2.2
      (by decide)⟩

/-- C4: running the refresher twice in immediate succession over an
unchanged item set (second run starting from the idempotency store the
first run left, within the TTL window) gives a second-run `processed` of 0
and a second-run `skipped` equal to the first run's `processed`. -/
theorem refresh_second_run_idempotent (cfg : RefreshConfig)
    (outcome : Nat → Nat → Bool) (window : String) (items : List Nat)
    (hk : (items.map (idempotencyKey window)).Nodup) :
    (refresh_all cfg outcome window items
        (refresh_all cfg outcome window items []).store).processed = 0 ∧
    (refresh_all cfg outcome window items
        (refresh_all cfg outcome window items []).store).skipped
      = (refresh_all cfg outcome window items []).processed := by
  obtain ⟨hp1, hs1, hm1⟩ := runItems_fresh cfg outcome window items
    ⟨[], 0, 0, 0, 0⟩ hk (by simp)
  obtain ⟨hp2, hs2⟩ := runItems_stable cfg outcome window items
    ⟨(refresh_all cfg outcome window items []).store, 0, 0, 0, 0⟩
    (by intro i hi; simpa [refresh_all] using hm1 i hi)
  refine ⟨by simpa [refresh_all] using hp2, ?_⟩
  have h2 : (refresh_all cfg outcome window items
      (refresh_all cfg outcome window items []).store).skipped
      = items.countP (fun i => attemptSucceeds outcome cfg.maxRetries i) := by
    simpa [refresh_all] using hs2
  have h1 : (refresh_all cfg outcome window items []).processed
      = items.countP (fun i => attemptSucceeds outcome cfg.maxRetries i) := by
    simpa [refresh_all] using hp1
  exact h2.trans h1.symm

/-- C4 (witness): three items of which two succeed, run twice from an empty
store. -/
theorem refresh_second_run_idempotent_witness :
    ([1, 2, 3].map (idempotencyKey "d")).Nodup ∧
    (refresh_all {} (fun i _ => decide (i ≤ 2)) "d" [1, 2, 3]
        (refresh_all {} (fun i _ => decide (i ≤ 2)) "d" [1, 2, 3] []).store).processed
      = 0 ∧
    (refresh_all {} (fun i _ => decide (i ≤ 2)) "d" [1, 2, 3]
        (refresh_all {} (fun i _ => decide (i ≤ 2)) "d" [1, 2, 3] []).store).skipped
      = (refresh_all {} (fun i _ => decide (i ≤ 2)) "d" [1, 2, 3] []).processed :=
  ⟨by decide,
    (refresh_second_run_idempotent {} (fun i _ => decide (i ≤ 2)) "d" [1, 2, 3]
      (by decide)).1,
    (refresh_second_run_idempotent {} (fun i _ => decide (i ≤ 2)) "d" [1, 2, 3]
      (by decide)).2⟩

end WorkoutTracker
